import Mathlib

/-!
Verification of the eventBooker seat-allocation core.

The definitions below are a shallow embedding of the Go storage layer
(package `postgres`): the two tables of the schema become lists of
records, timestamps become natural-number minutes, and each transactional
method (`BookEvent`, `ConfirmBooking`, `CancelExpiredBookings`,
`GetEvent`) becomes a pure function from a storage state to a new storage
state paired with the Go return value (`Option String` mirrors Go's
`error`, with `none` for `nil` and `some msg` for `fmt.Errorf(msg)`).
A transaction that returns early before `tx.Commit()` rolls back, so the
embedded function returns the original state in every error branch.
-/

namespace EventBooker

/-- Row of the `events` table: `models.Event` minus the derived
`BookedSeats` column (which is computed by queries, not stored). -/
structure Event where
  id : Nat
  title : String
  date : Int
  totalSeats : Nat
  deadline : Nat
  deriving DecidableEq, Repr

/-- Row of the `bookings` table (`models.Booking`); `createdAt` is a
timestamp measured in minutes so that the SQL interval arithmetic
`created_at < NOW() - INTERVAL '1 minute' * deadline_minutes` becomes
`createdAt + deadline < now`. -/
structure Booking where
  id : Nat
  eventId : Nat
  userId : String
  createdAt : Nat
  confirmed : Bool
  deriving DecidableEq, Repr

/-- The database state: both tables plus the `SERIAL` counter that the
database uses to assign the next booking id. -/
structure Storage where
  events : List Event
  bookings : List Booking
  nextBookingId : Nat
  deriving DecidableEq, Repr

/-- `SELECT COUNT(*) FROM bookings WHERE event_id = $1 AND confirmed = true`,
which is also the count produced by the `LEFT JOIN ... AND b.confirmed = true`
aggregation in `BookEvent` and `ConfirmBooking` (`COUNT(b.id)` skips the
NULLs of unmatched rows). -/
def confirmedCountL (l : List Booking) (eventID : Nat) : Nat :=
  l.countP (fun b => b.eventId == eventID && b.confirmed)

def confirmedCount (s : Storage) (eventID : Nat) : Nat :=
  confirmedCountL s.bookings eventID

/-- The `countQuery` of `BookEvent` / `ConfirmBooking`: one row
`(total_seats, confirmed count)` when the event exists, `sql.ErrNoRows`
(here `none`) when it does not. -/
def seatsInfo (s : Storage) (eventID : Nat) : Option (Nat × Nat) :=
  match s.events.find? (fun e => e.id == eventID) with
  | none => none
  | some e => some (e.totalSeats, confirmedCount s eventID)

/-- The `checkQuery` of `BookEvent`:
`SELECT EXISTS(SELECT 1 FROM bookings WHERE event_id = $1 AND user_id = $2 AND confirmed = false)`. -/
def pendingExists (s : Storage) (eventID : Nat) (userID : String) : Bool :=
  s.bookings.any (fun b => b.eventId == eventID && b.userId == userID && !b.confirmed)

/-- The `checkQuery` of `ConfirmBooking`: the first pending booking row
for `(eventID, userID)`, if any. -/
def findPending (s : Storage) (eventID : Nat) (userID : String) : Option Booking :=
  s.bookings.find? (fun b => b.eventId == eventID && b.userId == userID && !b.confirmed)

/-- `Storage.BookEvent` (placeBooking): read seats info, reject when
`bookedSeats >= totalSeats`, reject a duplicate pending booking, then
insert a fresh pending row with `created_at = NOW()`. -/
def BookEvent (s : Storage) (now : Nat) (eventID : Nat) (userID : String) :
    Storage × Option String :=
  match seatsInfo s eventID with
  | none => (s, some "failed to get event seats info")
  | some (totalSeats, bookedSeats) =>
    if bookedSeats ≥ totalSeats then
      (s, some "no available seats")
    else if pendingExists s eventID userID then
      (s, some "user already has pending booking for this event")
    else
      ({ s with
          bookings := s.bookings ++
            [{ id := s.nextBookingId, eventId := eventID, userId := userID,
               createdAt := now, confirmed := false }],
          nextBookingId := s.nextBookingId + 1 }, none)

/-- `Storage.ConfirmBooking`: locate the pending booking for
`(eventID, userID)` (failing with "no pending booking found" when there is
none), re-read the seats info, reject when `bookedSeats >= totalSeats`,
then `UPDATE bookings SET confirmed = true WHERE id = $1`. -/
def ConfirmBooking (s : Storage) (eventID : Nat) (userID : String) :
    Storage × Option String :=
  match findPending s eventID userID with
  | none => (s, some "no pending booking found")
  | some booking =>
    match seatsInfo s eventID with
    | none => (s, some "failed to get event seats info")
    | some (totalSeats, bookedSeats) =>
      if bookedSeats ≥ totalSeats then
        (s, some "no available seats")
      else
        ({ s with
            bookings := s.bookings.map (fun b =>
              if b.id == booking.id then { b with confirmed := true } else b) },
          none)

/-- The `WHERE` clause of `CancelExpiredBookings`: the row is pending and
`created_at < NOW() - INTERVAL '1 minute' * (SELECT deadline_minutes FROM
events WHERE id = bookings.event_id)`; a NULL deadline (no owning event)
compares as unknown, so such a row is not deleted. -/
def isExpired (s : Storage) (now : Nat) (b : Booking) : Bool :=
  !b.confirmed &&
    (match s.events.find? (fun e => e.id == b.eventId) with
     | some e => decide (b.createdAt + e.deadline < now)
     | none => false)

/-- `Storage.CancelExpiredBookings` (runExpirySweep): one bulk `DELETE` of
the expired pending rows; the Go method returns only `error` (always `nil`
unless the statement itself fails), the affected-row count is printed and
discarded. -/
def CancelExpiredBookings (s : Storage) (now : Nat) : Storage × Option String :=
  ({ s with bookings := s.bookings.filter (fun b => !(isExpired s now b)) }, none)

/-- The `rowsAffected` value that `CancelExpiredBookings` reads from the
result and prints: the number of rows the sweep deletes. -/
def removedCount (s : Storage) (now : Nat) : Nat :=
  s.bookings.countP (fun b => isExpired s now b)

/-- `Storage.GetEvent`: the event row plus the derived confirmed-booking
count; "event not found" is the error the `getEventInfo` handler maps to
HTTP 404 (the codebase's NotFound error). -/
def GetEvent (s : Storage) (id : Nat) : Except String (Event × Nat) :=
  match s.events.find? (fun e => e.id == id) with
  | none => .error "event not found"
  | some e => .ok (e, confirmedCount s id)

/-- The capacity invariant of the spec: for every event,
`count(bookings where confirmed = true) <= total_seats`. -/
def capOK (s : Storage) : Prop :=
  ∀ e ∈ s.events, confirmedCount s e.id ≤ e.totalSeats

instance (s : Storage) : Decidable (capOK s) := by
  unfold capOK; infer_instance

/-- Number of pending rows for one `(event, holder)` pair. -/
def pendingCount (l : List Booking) (eventID : Nat) (userID : String) : Nat :=
  l.countP (fun b => b.eventId == eventID && b.userId == userID && !b.confirmed)

/-- The uniqueness invariant of the spec (and of the partial unique index
`idx_unique_pending_booking_per_user`): at most one pending row per
`(event, holder)` pair. -/
def atMostOnePending (s : Storage) : Prop :=
  ∀ eventID userID, pendingCount s.bookings eventID userID ≤ 1

/-! ### Helper lemmas -/

/-- Confirming the booking with id `bid` raises `countP p` by at most one
when booking ids are unique. -/
theorem countP_map_confirm_le (p : Booking → Bool) (bid : Nat) (l : List Booking)
    (h : (l.map Booking.id).Nodup) :
    (l.map (fun b => if b.id == bid then { b with confirmed := true } else b)).countP p ≤
      l.countP p + 1 := by
  induction l with
  | nil => simp
  | cons b t ih =>
    rw [List.map_cons, List.nodup_cons] at h
    rw [List.map_cons, List.countP_cons, List.countP_cons]
    cases hb : b.id == bid with
    | true =>
      have ht : t.map (fun x => if x.id == bid then { x with confirmed := true } else x) = t := by
        have hfix : ∀ x ∈ t, (if x.id == bid then { x with confirmed := true } else x) = x := by
          intro x hx
          have hxid : (x.id == bid) = false := by
            cases htr : x.id == bid with
            | false => rfl
            | true =>
              exfalso
              apply h.1
              have hxb : x.id = b.id := by
                have h1 : x.id = bid := by simpa using htr
                have h2 : b.id = bid := by simpa using hb
                rw [h1, h2]
              exact hxb ▸ List.mem_map_of_mem Booking.id hx
          simp [hxid]
        calc t.map (fun x => if x.id == bid then { x with confirmed := true } else x)
            = t.map id := List.map_congr_left (by simpa using hfix)
          _ = t := List.map_id t
      rw [ht]
      cases h1 : p { b with confirmed := true } <;> cases h2 : p b <;>
        (simp [h1, h2]; try omega)
    | false =>
      have hcond : (if (false = true) then { b with confirmed := true } else b) = b := by simp
      rw [hcond]
      have hih := ih h.2
      omega

/-- A map that does not change whether any row satisfies `p` does not
change `countP p`. -/
theorem countP_map_congr_of_fix (p : Booking → Bool) (f : Booking → Booking) (l : List Booking)
    (h : ∀ b ∈ l, p (f b) = p b) : (l.map f).countP p = l.countP p := by
  induction l with
  | nil => rfl
  | cons b t ih =>
    rw [List.map_cons, List.countP_cons, List.countP_cons, h b (List.mem_cons_self b t),
      ih (fun x hx => h x (List.mem_cons_of_mem b hx))]

/-- Booking ids are primary keys: under `Nodup`, two rows with equal id are
the same row. -/
theorem eq_of_mem_of_nodup_ids (l : List Booking) (h : (l.map Booking.id).Nodup)
    (b1 b2 : Booking) (h1 : b1 ∈ l) (h2 : b2 ∈ l) (hid : b1.id = b2.id) : b1 = b2 :=
  List.inj_on_of_nodup_map h h1 h2 hid

/-- Event ids are primary keys: `find?` by id returns the unique event row
with that id. -/
theorem find?_event_eq_of_mem (l : List Event) (h : (l.map Event.id).Nodup)
    (e : Event) (he : e ∈ l) (k : Nat) (hk : e.id = k) :
    l.find? (fun x => x.id == k) = some e := by
  cases hf : l.find? (fun x => x.id == k) with
  | none =>
    exfalso
    have := List.find?_eq_none.mp hf e he
    apply this
    simp [hk]
  | some e2 =>
    have hpe : e2.id = k := by simpa using List.find?_some hf
    have he2 : e2 ∈ l := List.mem_of_find?_eq_some hf
    have heq : e2 = e := List.inj_on_of_nodup_map h he2 he (by rw [hpe, hk])
    rw [heq]

/-- A one-element list has at most one row satisfying any predicate. -/
theorem countP_singleton_le_one (p : Booking → Bool) (x : Booking) :
    List.countP p [x] ≤ 1 := by
  rw [List.countP_cons, List.countP_nil]
  cases hp : p x <;> simp [hp]

/-- A pending row for a specific pair is in particular a pending row. -/
theorem pendingCount_le_unconfirmed (l : List Booking) (eid : Nat) (uid : String) :
    pendingCount l eid uid ≤ l.countP (fun b => !b.confirmed) := by
  apply List.countP_mono_left
  intro b _ hb
  simp only [Bool.and_eq_true] at hb
  exact hb.2

/-- The confirm-update map never turns a row into a pending row. -/
theorem pendingCount_confirmMap_le (l : List Booking) (bid eid : Nat) (uid : String) :
    pendingCount
      (l.map (fun x => if x.id == bid then { x with confirmed := true } else x)) eid uid ≤
      pendingCount l eid uid := by
  unfold pendingCount
  rw [List.countP_map]
  apply List.countP_mono_left
  intro x _ hx
  simp only [Function.comp] at hx
  by_cases hid : x.id == bid
  · rw [hid] at hx
    simp at hx
  · rw [Bool.eq_false_iff.mpr hid] at hx
    simpa using hx

/-- A pending row of the confirm-update image was already a row of the
original list. -/
theorem mem_of_pending_mem_confirmMap (l : List Booking) (bid : Nat) (b : Booking)
    (hb : b ∈ l.map (fun x => if x.id == bid then { x with confirmed := true } else x))
    (hc : b.confirmed = false) : b ∈ l := by
  rcases List.mem_map.mp hb with ⟨x, hx, hfx⟩
  by_cases hid : x.id == bid
  · rw [hid] at hfx
    simp only [if_pos] at hfx
    rw [← hfx] at hc
    simp at hc
  · rw [Bool.eq_false_iff.mpr hid] at hfx
    simp only [Bool.false_eq_true, if_false] at hfx
    rwa [← hfx]

-- Concrete scenario of §8 of the spec: one event with a single seat.

def ev1 : Event := { id := 1, title := "concert", date := 0, totalSeats := 1, deadline := 1 }

def sc0 : Storage := { events := [ev1], bookings := [], nextBookingId := 1 }

def sc1 : Storage :=
  { events := [ev1]
    bookings := [{ id := 1, eventId := 1, userId := "A", createdAt := 0, confirmed := false }]
    nextBookingId := 2 }

def sc2 : Storage :=
  { events := [ev1]
    bookings := [{ id := 1, eventId := 1, userId := "A", createdAt := 0, confirmed := false },
                 { id := 2, eventId := 1, userId := "B", createdAt := 0, confirmed := false }]
    nextBookingId := 3 }

def sc3 : Storage :=
  { events := [ev1]
    bookings := [{ id := 1, eventId := 1, userId := "A", createdAt := 0, confirmed := true },
                 { id := 2, eventId := 1, userId := "B", createdAt := 0, confirmed := false }]
    nextBookingId := 3 }

/-- C2: placeBooking admits against confirmed bookings only: with
`total_seats = 1`, A's place succeeds, B's place succeeds while the
confirmed count is still 0, A's confirm succeeds, and B's confirm then
fails with CapacityExceeded ("no available seats") because `1 >= 1`. -/
theorem bookEvent_admits_against_confirmed_only :
    BookEvent sc0 0 1 "A" = (sc1, none) ∧
    BookEvent sc1 0 1 "B" = (sc2, none) ∧
    confirmedCount sc2 1 = 0 ∧
    ConfirmBooking sc2 1 "A" = (sc3, none) ∧
    confirmedCount sc3 1 = 1 ∧
    ev1.totalSeats = 1 ∧
    ConfirmBooking sc3 1 "B" = (sc3, some "no available seats") := by
  decide

/-- C1: for every event with `total_seats = N`, the number of confirmed
bookings never exceeds `N`: from any state whose tables satisfy the
primary-key constraints and the bound, each of `BookEvent`,
`ConfirmBooking` and `CancelExpiredBookings` preserves the bound
(`ConfirmBooking` sets `confirmed = true` only after re-reading that the
confirmed count is strictly below `total_seats`). -/
theorem confirmedCount_le_totalSeats_preserved (s : Storage) (now eid : Nat) (uid : String)
    (hev : (s.events.map Event.id).Nodup)
    (hbk : (s.bookings.map Booking.id).Nodup)
    (hcap : capOK s) :
    capOK (BookEvent s now eid uid).1 ∧
    capOK (ConfirmBooking s eid uid).1 ∧
    capOK (CancelExpiredBookings s now).1 := by
  refine ⟨?_, ?_, ?_⟩
  · unfold BookEvent
    split
    · exact hcap
    · split
      · exact hcap
      · split
        · exact hcap
        · unfold capOK
          intro e he
          show confirmedCountL
            (s.bookings ++
              [({ id := s.nextBookingId, eventId := eid, userId := uid,
                  createdAt := now, confirmed := false } : Booking)]) e.id ≤ e.totalSeats
          unfold confirmedCountL
          rw [List.countP_append]
          have hz : List.countP (fun (b : Booking) => b.eventId == e.id && b.confirmed)
              [({ id := s.nextBookingId, eventId := eid, userId := uid,
                  createdAt := now, confirmed := false } : Booking)] = 0 := by simp
          rw [hz]
          exact hcap e he
  · unfold ConfirmBooking
    split
    · exact hcap
    · next bk hfp =>
      split
      · exact hcap
      · next a c hsi =>
        split
        · exact hcap
        · next hlt =>
          unfold findPending at hfp
          have hbkmem : bk ∈ s.bookings := List.mem_of_find?_eq_some hfp
          have hbkpred := List.find?_some hfp
          have hbke : bk.eventId = eid := by
            simp only [Bool.and_eq_true, beq_iff_eq] at hbkpred
            exact hbkpred.1.1
          unfold seatsInfo at hsi
          cases hfe : s.events.find? (fun x => x.id == eid) with
          | none =>
            rw [hfe] at hsi
            exact absurd hsi (by simp)
          | some e0 =>
            rw [hfe] at hsi
            have ha : e0.totalSeats = a := by
              have := Option.some.inj hsi
              exact (Prod.mk.injEq _ _ _ _ ▸ this).1
            have hc : confirmedCount s eid = c := by
              have := Option.some.inj hsi
              exact (Prod.mk.injEq _ _ _ _ ▸ this).2
            have he0mem : e0 ∈ s.events := List.mem_of_find?_eq_some hfe
            have he0id : e0.id = eid := by simpa using List.find?_some hfe
            unfold capOK
            intro e he
            show confirmedCountL
              (s.bookings.map (fun b =>
                if b.id == bk.id then { b with confirmed := true } else b)) e.id ≤ e.totalSeats
            unfold confirmedCountL
            by_cases hk : e.id = eid
            · have hee : e0 = e := List.inj_on_of_nodup_map hev he0mem he (by rw [he0id, hk])
              have hle := countP_map_confirm_le
                (fun b => b.eventId == e.id && b.confirmed) bk.id s.bookings hbk
              have hcount : List.countP (fun b => b.eventId == e.id && b.confirmed) s.bookings =
                  c := by
                rw [← hc]
                unfold confirmedCount confirmedCountL
                rw [hk]
              rw [hcount] at hle
              have hca : c < a := Nat.lt_of_not_le hlt
              have hta : e.totalSeats = a := by rw [← hee, ha]
              omega
            · rw [countP_map_congr_of_fix]
              · exact hcap e he
              · intro b hb
                cases hid : b.id == bk.id with
                | true =>
                  have hbbk : b = bk :=
                    eq_of_mem_of_nodup_ids s.bookings hbk b bk hb hbkmem (by simpa using hid)
                  have hne : (bk.eventId == e.id) = false := by
                    simp only [beq_eq_false_iff_ne, ne_eq]
                    rw [hbke]
                    exact fun hcontra => hk hcontra.symm
                  simp [hbbk, hne]
                | false =>
                  simp
  · unfold CancelExpiredBookings capOK
    intro e he
    show confirmedCountL (s.bookings.filter (fun b => !(isExpired s now b))) e.id ≤ e.totalSeats
    unfold confirmedCountL
    exact le_trans
      (List.Sublist.countP_le _ (List.filter_sublist s.bookings))
      (hcap e he)

/-- Witness for C1 at the concrete single-seat state `sc3`. -/
theorem confirmedCount_le_totalSeats_preserved_witness :
    ((sc3.events.map Event.id).Nodup ∧ (sc3.bookings.map Booking.id).Nodup ∧ capOK sc3) ∧
    (capOK (BookEvent sc3 0 1 "B").1 ∧
     capOK (ConfirmBooking sc3 1 "B").1 ∧
     capOK (CancelExpiredBookings sc3 0).1) :=
  ⟨⟨by decide, by decide, by decide⟩,
    confirmedCount_le_totalSeats_preserved sc3 0 1 "B" (by decide) (by decide) (by decide)⟩

/-- In `BookEvent`, every early return leaves the transaction uncommitted:
either the call succeeds or the state is unchanged. -/
theorem BookEvent_ok_or_id (s : Storage) (now eid : Nat) (uid : String) :
    (BookEvent s now eid uid).2 = none ∨ (BookEvent s now eid uid).1 = s := by
  unfold BookEvent
  split
  · right; rfl
  · split
    · right; rfl
    · split
      · right; rfl
      · left; rfl

/-- In `ConfirmBooking`, every early return leaves the transaction
uncommitted: either the call succeeds or the state is unchanged. -/
theorem ConfirmBooking_ok_or_id (s : Storage) (eid : Nat) (uid : String) :
    (ConfirmBooking s eid uid).2 = none ∨ (ConfirmBooking s eid uid).1 = s := by
  unfold ConfirmBooking
  split
  · right; rfl
  · split
    · right; rfl
    · split
      · right; rfl
      · left; rfl

/-- C4: `ConfirmBooking` fails with "no pending booking found" exactly when
no pending booking exists for the pair; that check precedes the capacity
check (the second conjunct holds with no side condition on capacity, so a
holder with no pending booking on a full event still gets this error), and
on this failure the state is returned unchanged. -/
theorem confirmBooking_noPendingBooking_iff (s : Storage) (eid : Nat) (uid : String) :
    ((ConfirmBooking s eid uid).2 = some "no pending booking found" ↔
      findPending s eid uid = none) ∧
    (findPending s eid uid = none →
      ConfirmBooking s eid uid = (s, some "no pending booking found")) := by
  have hdir : findPending s eid uid = none →
      ConfirmBooking s eid uid = (s, some "no pending booking found") := by
    intro h
    unfold ConfirmBooking
    rw [h]
  refine ⟨⟨?_, fun h => by rw [hdir h]⟩, hdir⟩
  intro h
  cases hfp : findPending s eid uid with
  | none => rfl
  | some bk =>
    exfalso
    unfold ConfirmBooking at h
    rw [hfp] at h
    cases hsi : seatsInfo s eid with
    | none =>
      rw [hsi] at h
      simp at h
    | some ac =>
      obtain ⟨a, c⟩ := ac
      rw [hsi] at h
      dsimp only at h
      by_cases hge : c ≥ a
      · rw [if_pos hge] at h
        simp at h
      · rw [if_neg hge] at h
        simp at h

/-- Witness for C4: on the full event of `sc3`, holder "C" (who has no
pending booking) gets "no pending booking found", not "no available
seats". -/
theorem confirmBooking_noPendingBooking_iff_witness :
    findPending sc3 1 "C" = none ∧
    ConfirmBooking sc3 1 "C" = (sc3, some "no pending booking found") :=
  ⟨by decide, (confirmBooking_noPendingBooking_iff sc3 1 "C").2 (by decide)⟩

/-- C9: failing Seat Allocator operations are atomic — whenever `BookEvent`
or `ConfirmBooking` returns an error, the stored state (events, bookings
and the id counter) is exactly what it was before the call. -/
theorem failed_operations_leave_state_unchanged (s t : Storage) (now eid fid : Nat)
    (uid vid : String)
    (hb : (BookEvent s now eid uid).2 ≠ none)
    (hc : (ConfirmBooking t fid vid).2 ≠ none) :
    (BookEvent s now eid uid).1 = s ∧ (ConfirmBooking t fid vid).1 = t := by
  constructor
  · cases BookEvent_ok_or_id s now eid uid with
    | inl hok => exact absurd hok hb
    | inr hid => exact hid
  · cases ConfirmBooking_ok_or_id t fid vid with
    | inl hok => exact absurd hok hc
    | inr hid => exact hid

def csEmpty : Storage := { events := [], bookings := [], nextBookingId := 1 }

/-- Witness for C9 on the empty store, where both operations fail. -/
theorem failed_operations_leave_state_unchanged_witness :
    ((BookEvent csEmpty 0 1 "A").2 ≠ none ∧ (ConfirmBooking csEmpty 1 "A").2 ≠ none) ∧
    ((BookEvent csEmpty 0 1 "A").1 = csEmpty ∧ (ConfirmBooking csEmpty 1 "A").1 = csEmpty) :=
  ⟨⟨by decide, by decide⟩,
    failed_operations_leave_state_unchanged csEmpty csEmpty 0 1 1 "A" "A"
      (by decide) (by decide)⟩

/-- C10: a holder who already holds a confirmed booking for an event can
place a second booking for the same event — the duplicate check only looks
at pending rows, so with no pending row and spare confirmed capacity,
`BookEvent` succeeds and inserts a fresh pending row. -/
theorem confirmed_holder_can_place_again (s : Storage) (now eid : Nat) (uid : String)
    (a c : Nat)
    (hconf : ∃ b ∈ s.bookings, b.eventId = eid ∧ b.userId = uid ∧ b.confirmed = true)
    (hnp : pendingExists s eid uid = false)
    (hsi : seatsInfo s eid = some (a, c))
    (hlt : c < a) :
    BookEvent s now eid uid =
      ({ s with
          bookings := s.bookings ++
            [({ id := s.nextBookingId, eventId := eid, userId := uid,
                createdAt := now, confirmed := false } : Booking)],
          nextBookingId := s.nextBookingId + 1 }, none) := by
  unfold BookEvent
  rw [hsi]
  dsimp only
  rw [if_neg (by omega : ¬c ≥ a)]
  rw [hnp]
  simp

def cs10 : Storage :=
  { events := [{ id := 1, title := "talk", date := 0, totalSeats := 2, deadline := 1 }]
    bookings := [{ id := 1, eventId := 1, userId := "A", createdAt := 0, confirmed := true }]
    nextBookingId := 2 }

/-- Witness for C10: holder "A" already holds a confirmed booking on the
two-seat event of `cs10` and can place a new pending booking. -/
theorem confirmed_holder_can_place_again_witness :
    ((∃ b ∈ cs10.bookings, b.eventId = 1 ∧ b.userId = "A" ∧ b.confirmed = true) ∧
      pendingExists cs10 1 "A" = false ∧ seatsInfo cs10 1 = some (2, 1)) ∧
    BookEvent cs10 0 1 "A" =
      ({ cs10 with
          bookings := cs10.bookings ++
            [({ id := cs10.nextBookingId, eventId := 1, userId := "A",
                createdAt := 0, confirmed := false } : Booking)],
          nextBookingId := cs10.nextBookingId + 1 }, none) :=
  ⟨⟨by decide, by decide, by decide⟩,
    confirmed_holder_can_place_again cs10 0 1 "A" 2 1
      (by decide) (by decide) (by decide) (by decide)⟩

/-- Under the events primary key, the sweep predicate holds exactly of the
pending rows whose age exceeds their own event's deadline. -/
theorem isExpired_iff (s : Storage) (now : Nat) (b : Booking)
    (hev : (s.events.map Event.id).Nodup) :
    isExpired s now b = true ↔
      (b.confirmed = false ∧
        ∃ e ∈ s.events, e.id = b.eventId ∧ b.createdAt + e.deadline < now) := by
  unfold isExpired
  constructor
  · intro h
    rw [Bool.and_eq_true] at h
    obtain ⟨h1, h2⟩ := h
    have hbc : b.confirmed = false := by simpa using h1
    refine ⟨hbc, ?_⟩
    cases hfe : s.events.find? (fun e => e.id == b.eventId) with
    | none =>
      rw [hfe] at h2
      simp at h2
    | some e =>
      rw [hfe] at h2
      have hlt : b.createdAt + e.deadline < now := by simpa using h2
      exact ⟨e, List.mem_of_find?_eq_some hfe, by simpa using List.find?_some hfe, hlt⟩
  · rintro ⟨hbc, e, hemem, heid, hlt⟩
    rw [Bool.and_eq_true]
    constructor
    · simp [hbc]
    · rw [find?_event_eq_of_mem s.events hev e hemem b.eventId heid]
      simpa using hlt

/-- C6: one sweep deletes exactly the pending bookings whose age exceeds
their own event's deadline (each booking against its own event), it never
deletes a confirmed booking, and it leaves the events table, the id
counter and every surviving row unchanged. -/
theorem sweep_deletes_exactly_expired_pending (s : Storage) (now : Nat)
    (hev : (s.events.map Event.id).Nodup) :
    (CancelExpiredBookings s now).1.events = s.events ∧
    (CancelExpiredBookings s now).1.nextBookingId = s.nextBookingId ∧
    (∀ b : Booking, b ∈ (CancelExpiredBookings s now).1.bookings ↔
      (b ∈ s.bookings ∧
        ¬(b.confirmed = false ∧
          ∃ e ∈ s.events, e.id = b.eventId ∧ b.createdAt + e.deadline < now))) ∧
    (∀ b ∈ s.bookings, b.confirmed = true →
      b ∈ (CancelExpiredBookings s now).1.bookings) := by
  have hmem : ∀ b : Booking, b ∈ (CancelExpiredBookings s now).1.bookings ↔
      (b ∈ s.bookings ∧
        ¬(b.confirmed = false ∧
          ∃ e ∈ s.events, e.id = b.eventId ∧ b.createdAt + e.deadline < now)) := by
    intro b
    unfold CancelExpiredBookings
    show b ∈ s.bookings.filter (fun b => !(isExpired s now b)) ↔ _
    rw [List.mem_filter]
    constructor
    · rintro ⟨hb, hnx⟩
      refine ⟨hb, ?_⟩
      intro hspec
      rw [← isExpired_iff s now b hev] at hspec
      rw [hspec] at hnx
      simp at hnx
    · rintro ⟨hb, hnspec⟩
      refine ⟨hb, ?_⟩
      rw [← isExpired_iff s now b hev] at hnspec
      simp only [Bool.not_eq_true] at hnspec
      rw [hnspec]
      rfl
  refine ⟨rfl, rfl, hmem, ?_⟩
  intro b hb hc
  rw [hmem b]
  refine ⟨hb, ?_⟩
  rintro ⟨hfalse, _⟩
  rw [hc] at hfalse
  exact absurd hfalse (by decide)

/-- Witness for C6 at the concrete state `sc3` and time 10: the confirmed
booking of holder "A" survives, the expired pending booking of "B" is
removed. -/
theorem sweep_deletes_exactly_expired_pending_witness :
    (sc3.events.map Event.id).Nodup ∧
    ((CancelExpiredBookings sc3 10).1.events = sc3.events ∧
     (CancelExpiredBookings sc3 10).1.nextBookingId = sc3.nextBookingId ∧
     (∀ b : Booking, b ∈ (CancelExpiredBookings sc3 10).1.bookings ↔
       (b ∈ sc3.bookings ∧
         ¬(b.confirmed = false ∧
           ∃ e ∈ sc3.events, e.id = b.eventId ∧ b.createdAt + e.deadline < 10))) ∧
     (∀ b ∈ sc3.bookings, b.confirmed = true →
       b ∈ (CancelExpiredBookings sc3 10).1.bookings)) :=
  ⟨by decide, sweep_deletes_exactly_expired_pending sc3 10 (by decide)⟩

/-- C5 counterexample: state `sc1` is reached by one `BookEvent` call; at
time 10 its pending booking (age 10 > deadline 1) is expired, yet
`ConfirmBooking` still succeeds and sets `confirmed = true` — the lookup
performs no deadline check. -/
theorem confirmBooking_confirms_expired_pending_cex :
    BookEvent sc0 0 1 "A" = (sc1, none) ∧
    (∀ b ∈ sc1.bookings, isExpired sc1 10 b = true) ∧
    ConfirmBooking sc1 1 "A" =
      ({ events := [ev1],
         bookings := [{ id := 1, eventId := 1, userId := "A", createdAt := 0,
                        confirmed := true }],
         nextBookingId := 2 }, none) := by
  decide

/-- C5 amended: expiry is enforced only by the sweeper — once a sweep runs
at a time when every pending booking of `(eventId, holder)` is expired,
those rows are gone and `ConfirmBooking` fails with "no pending booking
found". -/
theorem sweep_then_confirm_fails_noPending (s : Storage) (now eid : Nat) (uid : String)
    (h : ∀ b ∈ s.bookings, b.eventId = eid → b.userId = uid → b.confirmed = false →
      isExpired s now b = true) :
    ConfirmBooking (CancelExpiredBookings s now).1 eid uid =
      ((CancelExpiredBookings s now).1, some "no pending booking found") := by
  have hnone : findPending (CancelExpiredBookings s now).1 eid uid = none := by
    unfold findPending CancelExpiredBookings
    show (s.bookings.filter (fun b => !(isExpired s now b))).find? _ = none
    rw [List.find?_eq_none]
    intro b hb hpred
    rw [List.mem_filter] at hb
    obtain ⟨hbmem, hnx⟩ := hb
    simp only [Bool.and_eq_true, beq_iff_eq, Bool.not_eq_true'] at hpred
    have hexp := h b hbmem hpred.1.1 hpred.1.2 hpred.2
    rw [hexp] at hnx
    exact absurd hnx (by decide)
  unfold ConfirmBooking
  rw [hnone]

/-- Witness for the amended C5 at `sc1` and time 10. -/
theorem sweep_then_confirm_fails_noPending_witness :
    (∀ b ∈ sc1.bookings, b.eventId = 1 → b.userId = "A" → b.confirmed = false →
      isExpired sc1 10 b = true) ∧
    ConfirmBooking (CancelExpiredBookings sc1 10).1 1 "A" =
      ((CancelExpiredBookings sc1 10).1, some "no pending booking found") :=
  ⟨by decide, sweep_then_confirm_fails_noPending sc1 10 1 "A" (by decide)⟩

/-- C3 counterexample: in `sc3` holder "B" has a pending booking on a full
event; a second `BookEvent` by "B" fails with "no available seats", not
with the DuplicatePending error, because the capacity check runs first. -/
theorem bookEvent_pending_but_capacity_error_cex :
    pendingExists sc3 1 "B" = true ∧
    BookEvent sc3 0 1 "B" = (sc3, some "no available seats") ∧
    some "no available seats" ≠ some "user already has pending booking for this event" := by
  decide

/-- No pending booking for a pair means no pending row at all. -/
theorem pendingCount_eq_zero_of_not_exists (s : Storage) (eid : Nat) (uid : String)
    (h : pendingExists s eid uid = false) : pendingCount s.bookings eid uid = 0 := by
  unfold pendingExists at h
  unfold pendingCount
  rw [List.countP_eq_zero]
  intro b hb hpred
  have hany : s.bookings.any
      (fun b => b.eventId == eid && b.userId == uid && !b.confirmed) = true :=
    List.any_eq_true.mpr ⟨b, hb, hpred⟩
  rw [h] at hany
  exact absurd hany (by decide)

/-- C3 amended: at most one pending row per `(event, holder)` pair is
preserved by every operation; whenever a pending booking for the pair
already exists, `BookEvent` inserts nothing and fails — with
DuplicatePending when the confirmed count is still below `total_seats`,
with CapacityExceeded when the event is already full — and neither
`ConfirmBooking` nor the sweep ever creates a pending row. -/
theorem atMostOnePending_preserved (s t : Storage) (now now2 eid eid2 : Nat)
    (uid uid2 : String)
    (hone : atMostOnePending t)
    (hp : pendingExists s eid uid = true) :
    ((BookEvent s now eid uid).1 = s ∧ (BookEvent s now eid uid).2 ≠ none) ∧
    (∀ a c, seatsInfo s eid = some (a, c) → c < a →
      (BookEvent s now eid uid).2 = some "user already has pending booking for this event") ∧
    (∀ a c, seatsInfo s eid = some (a, c) → a ≤ c →
      (BookEvent s now eid uid).2 = some "no available seats") ∧
    atMostOnePending (BookEvent t now2 eid2 uid2).1 ∧
    atMostOnePending (ConfirmBooking t eid2 uid2).1 ∧
    atMostOnePending (CancelExpiredBookings t now2).1 ∧
    (∀ b ∈ (ConfirmBooking t eid2 uid2).1.bookings, b.confirmed = false → b ∈ t.bookings) ∧
    (∀ b ∈ (CancelExpiredBookings t now2).1.bookings, b.confirmed = false → b ∈ t.bookings) := by
  refine ⟨?_, ?_, ?_, ?_, ?_, ?_, ?_, ?_⟩
  · unfold BookEvent
    cases hsi : seatsInfo s eid with
    | none => exact ⟨rfl, by simp⟩
    | some ac =>
      obtain ⟨a, c⟩ := ac
      dsimp only
      by_cases hge : c ≥ a
      · rw [if_pos hge]
        exact ⟨rfl, by simp⟩
      · rw [if_neg hge, hp]
        exact ⟨rfl, by simp⟩
  · intro a c hsi hlt
    unfold BookEvent
    rw [hsi]
    dsimp only
    rw [if_neg (by omega : ¬c ≥ a), hp]
    rfl
  · intro a c hsi hge
    unfold BookEvent
    rw [hsi]
    dsimp only
    rw [if_pos (by omega : c ≥ a)]
  · unfold BookEvent
    split
    · exact hone
    · split
      · exact hone
      · split
        · exact hone
        · next hnp =>
          have hfalse : pendingExists t eid2 uid2 = false := by
            simpa using hnp
          intro eid3 uid3
          show pendingCount
            (t.bookings ++
              [({ id := t.nextBookingId, eventId := eid2, userId := uid2,
                  createdAt := now2, confirmed := false } : Booking)]) eid3 uid3 ≤ 1
          unfold pendingCount
          rw [List.countP_append]
          have hz : pendingCount t.bookings eid2 uid2 = 0 :=
            pendingCount_eq_zero_of_not_exists t eid2 uid2 hfalse
          by_cases he : eid2 = eid3
          · by_cases hu : uid2 = uid3
            · have hz3 : List.countP
                  (fun b => b.eventId == eid3 && b.userId == uid3 && !b.confirmed)
                  t.bookings = 0 := by
                rw [← he, ← hu]
                exact hz
              rw [hz3]
              have hle := countP_singleton_le_one
                (fun b => b.eventId == eid3 && b.userId == uid3 && !b.confirmed)
                ({ id := t.nextBookingId, eventId := eid2, userId := uid2,
                   createdAt := now2, confirmed := false } : Booking)
              omega
            · have hz1 : List.countP
                  (fun b => b.eventId == eid3 && b.userId == uid3 && !b.confirmed)
                  [({ id := t.nextBookingId, eventId := eid2, userId := uid2,
                      createdAt := now2, confirmed := false } : Booking)] = 0 := by
                simp [hu]
              rw [hz1]
              have := hone eid3 uid3
              unfold pendingCount at this
              omega
          · have hz1 : List.countP
                (fun b => b.eventId == eid3 && b.userId == uid3 && !b.confirmed)
                [({ id := t.nextBookingId, eventId := eid2, userId := uid2,
                    createdAt := now2, confirmed := false } : Booking)] = 0 := by
              simp [he]
            rw [hz1]
            have := hone eid3 uid3
            unfold pendingCount at this
            omega
  · unfold ConfirmBooking
    split
    · exact hone
    · next bk hfp =>
      split
      · exact hone
      · split
        · exact hone
        · intro eid3 uid3
          show pendingCount
            (t.bookings.map (fun b =>
              if b.id == bk.id then { b with confirmed := true } else b)) eid3 uid3 ≤ 1
          exact le_trans
            (pendingCount_confirmMap_le t.bookings bk.id eid3 uid3)
            (hone eid3 uid3)
  · intro eid3 uid3
    show pendingCount (t.bookings.filter (fun b => !(isExpired t now2 b))) eid3 uid3 ≤ 1
    unfold pendingCount
    exact le_trans
      (List.Sublist.countP_le _ (List.filter_sublist t.bookings))
      (by have := hone eid3 uid3; unfold pendingCount at this; exact this)
  · unfold ConfirmBooking
    split
    · exact fun b hb _ => hb
    · next bk hfp =>
      split
      · exact fun b hb _ => hb
      · split
        · exact fun b hb _ => hb
        · intro b hb hc
          exact mem_of_pending_mem_confirmMap t.bookings bk.id b hb hc
  · intro b hb _
    exact (List.mem_filter.mp hb).1

/-- Witness for the amended C3: in `sc2` holder "B" already has a pending
booking on a not-yet-full event, so a second `BookEvent` fails with the
DuplicatePending error, and the operations on `sc3` keep at most one
pending row per pair. -/
theorem atMostOnePending_preserved_witness :
    (atMostOnePending sc3 ∧ pendingExists sc2 1 "B" = true) ∧
    (BookEvent sc2 0 1 "B").2 = some "user already has pending booking for this event" ∧
    atMostOnePending (ConfirmBooking sc3 1 "B").1 :=
  have hone : atMostOnePending sc3 := fun eid uid =>
    le_trans (pendingCount_le_unconfirmed sc3.bookings eid uid) (by decide)
  ⟨⟨hone, by decide⟩,
    (atMostOnePending_preserved sc2 sc3 0 0 1 1 "B" "B" hone (by decide)).2.1
      1 0 (by decide) (by decide),
    (atMostOnePending_preserved sc2 sc3 0 0 1 1 "B" "B" hone (by decide)).2.2.2.2.1⟩

/-- C7 counterexample: `CancelExpiredBookings` removes one booking from
`sc1` and two from `sc2` (at time 10), yet its return value — the Go
function's only return channel, `error` — is identical in both runs, so
the count removed is not returned to the caller. -/
theorem sweep_return_carries_no_count_cex :
    removedCount sc1 10 = 1 ∧ removedCount sc2 10 = 2 ∧
    (CancelExpiredBookings sc1 10).2 = (CancelExpiredBookings sc2 10).2 := by
  decide

/-- Splitting a list by a predicate accounts for its whole length. -/
theorem countP_not_add_countP (p : Booking → Bool) (l : List Booking) :
    (l.filter (fun b => !(p b))).length + l.countP p = l.length := by
  induction l with
  | nil => rfl
  | cons b t ih =>
    rw [List.countP_cons, List.length_cons]
    cases hp : p b <;> simp [List.filter_cons, hp] <;> omega

/-- C7 amended: `runExpirySweep` deletes the expired pending bookings and
returns only success (`nil` error) or a store error; the number removed is
printed, not returned — the sweep's removals plus the survivors account
for every booking row. -/
theorem sweep_returns_nil_not_count (s : Storage) (now : Nat) :
    (CancelExpiredBookings s now).2 = none ∧
    (CancelExpiredBookings s now).1.bookings.length + removedCount s now =
      s.bookings.length := by
  refine ⟨rfl, ?_⟩
  unfold CancelExpiredBookings removedCount
  exact countP_not_add_countP (fun b => isExpired s now b) s.bookings

/-- C8 counterexample: on a store with no event 1, `BookEvent` fails with
the generic seats-info error, while the codebase's NotFound error (the one
`GetEvent` produces and the HTTP layer maps to 404) is "event not found" —
`BookEvent` does not fail with NotFound. -/
theorem bookEvent_missing_event_error_cex :
    csEmpty.events.find? (fun e => e.id == 1) = none ∧
    BookEvent csEmpty 0 1 "A" = (csEmpty, some "failed to get event seats info") ∧
    GetEvent csEmpty 1 = .error "event not found" ∧
    some "failed to get event seats info" ≠ some "event not found" :=
  ⟨by decide, by decide, rfl, by decide⟩

/-- C8 amended: when no event with id `eventId` exists, `BookEvent` fails
with the generic store error "failed to get event seats info" (not a
NotFound) and creates no booking row — the state is returned unchanged. -/
theorem bookEvent_missing_event_generic_error (s : Storage) (now eid : Nat) (uid : String)
    (h : s.events.find? (fun e => e.id == eid) = none) :
    BookEvent s now eid uid = (s, some "failed to get event seats info") := by
  unfold BookEvent seatsInfo
  rw [h]

/-- Witness for the amended C8 on the empty store. -/
theorem bookEvent_missing_event_generic_error_witness :
    csEmpty.events.find? (fun e => e.id == 2) = none ∧
    BookEvent csEmpty 0 2 "B" = (csEmpty, some "failed to get event seats info") :=
  ⟨by decide, bookEvent_missing_event_generic_error csEmpty 0 2 "B" (by decide)⟩

end EventBooker
